import Mathlib

/-!
Verification development for the CloudCostChefs OCI Dev/Test Resource Cost
Chef (`OCI-DevTest-CostChef.py`): a shallow embedding of the classification
and reporting pipeline, together with theorems about the frozen claims.

Modelling conventions:
* OCI API clients are values: a listing call that may raise becomes an
  `Except String` value; a per-resource secondary call becomes a function
  returning `Except String`.
* Python truthiness of an optional dict (`hasattr ... and ...`) becomes
  `Option` plus an emptiness test.
* A Python `try:` block whose loop may raise mid-iteration is embedded as a
  recursion that, on the first error, discards the rest of the traversal and
  keeps the findings accumulated so far (the `except` branch returns the
  accumulator).
-/

namespace CostChef

/-- A tag set: `freeform_tags` is a key/value map, `defined_tags` groups
key/value maps by namespace.  `none` models an absent attribute
(`hasattr` false); `some []` models a present-but-empty (falsy) dict. -/
structure TagSet where
  freeform_tags : Option (List (String × String))
  defined_tags : Option (List (String × List (String × String)))
deriving Repr, DecidableEq

/-- `self.dev_test_tags` from `__init__`. -/
def dev_test_tags : List String :=
  ["dev", "test", "development", "testing", "staging", "qa"]

/-- `self.automation_tag_keys` from `__init__`. -/
def automation_tag_keys : List String :=
  ["auto-shutdown", "auto-start", "schedule", "stop-start", "automation"]

/-- The freeform key/value pairs the Python loops iterate (empty when the
attribute is absent or the dict is falsy). -/
def TagSet.freeformPairs (t : TagSet) : List (String × String) :=
  match t.freeform_tags with
  | none => []
  | some l => l

/-- The `(namespace, key, value)` triples the nested defined-tag loops
iterate. -/
def TagSet.definedTriples (t : TagSet) : List (String × String × String) :=
  match t.defined_tags with
  | none => []
  | some nss => nss.flatMap (fun ns => ns.2.map (fun kv => (ns.1, kv.1, kv.2)))

/-- Python's `str.lower`, character-wise over the string's characters
(ASCII case mapping, which is exact for every label this program
compares). -/
def strLower (s : String) : String := ⟨s.data.map Char.toLower⟩

/-- `is_dev_test_resource`: any freeform value or any defined-tag value whose
lowercasing is in `dev_test_tags`. -/
def is_dev_test_resource (t : TagSet) : Bool :=
  (t.freeformPairs.any (fun kv => dev_test_tags.contains (strLower kv.2))) ||
  (t.definedTriples.any (fun nkv => dev_test_tags.contains (strLower nkv.2.2)))

/-- Substring test on character lists: does `hay` contain `needle` as a
contiguous sublist?  (Python's `needle in hay` on strings.) -/
def charsHaveSub (hay needle : List Char) : Bool :=
  needle.isPrefixOf hay ||
  match hay with
  | [] => false
  | _ :: rest => charsHaveSub rest needle

/-- Python `needle in hay` on strings. -/
def strHasSub (hay needle : String) : Bool :=
  charsHaveSub hay.data needle.data

/-- `has_automation_tags`: some tag KEY (freeform or defined), lowercased,
contains one of the automation key substrings. -/
def has_automation_tags (t : TagSet) : Bool :=
  (t.freeformPairs.any (fun kv =>
    automation_tag_keys.any (fun ak => strHasSub (strLower kv.1) (strLower ak)))) ||
  (t.definedTriples.any (fun nkv =>
    automation_tag_keys.any (fun ak => strHasSub (strLower nkv.2.1) (strLower ak))))

/-- The `tag_strings` list built by `format_tags`: `key=value` for freeform
tags then `namespace.key=value` for defined tags. -/
def tagStrings (t : TagSet) : List String :=
  t.freeformPairs.map (fun kv => kv.1 ++ "=" ++ kv.2) ++
  t.definedTriples.map (fun nkv => nkv.1 ++ "." ++ nkv.2.1 ++ "=" ++ nkv.2.2)

/-- Python `'; '.join`. -/
def joinSemi : List String → String
  | [] => ""
  | [s] => s
  | s :: rest => s ++ "; " ++ joinSemi (rest)

/-- `format_tags`: join the rendered pairs with `; `, or the sentinel
`"N/A"` when there are none. -/
def format_tags (t : TagSet) : String :=
  if tagStrings t ≠ [] then joinSemi (tagStrings t) else "N/A"

/-- All tag values of a tag set (freeform and defined), for stating the
`is_dev_test_resource` characterization. -/
def TagSet.allValues (t : TagSet) : List String :=
  t.freeformPairs.map (fun kv => kv.2) ++ t.definedTriples.map (fun nkv => nkv.2.2)

/-- The empty tag set (both dicts present but empty). -/
def emptyTags : TagSet := ⟨some [], some []⟩

/-- A tag set whose attributes are absent altogether. -/
def absentTags : TagSet := ⟨none, none⟩

/-! ## Resource snapshots (listing-call records) -/

/-- `self.production_db_shapes`. -/
def production_db_shapes : List String :=
  ["VM.Standard2.2", "VM.Standard2.4", "VM.Standard2.8", "VM.Standard2.16", "VM.Standard2.24",
   "VM.Standard3.2", "VM.Standard3.4", "VM.Standard3.8", "VM.Standard3.16", "VM.Standard3.24",
   "BM.Standard2.52", "BM.Standard3.64", "BM.HighIO1.36",
   "VM.Standard.E3.2", "VM.Standard.E3.4", "VM.Standard.E3.8"]

/-- `self.oversized_compute_shapes`. -/
def oversized_compute_shapes : List String :=
  ["VM.Standard2.2", "VM.Standard2.4", "VM.Standard2.8", "VM.Standard2.16", "VM.Standard2.24",
   "VM.Standard3.2", "VM.Standard3.4", "VM.Standard3.8", "VM.Standard3.16", "VM.Standard3.24",
   "VM.DenseIO2.8", "VM.DenseIO2.16", "VM.DenseIO2.24",
   "VM.GPU3.1", "VM.GPU3.2", "VM.GPU3.4",
   "BM.Standard2.52", "BM.Standard3.64"]

/-- A DB system returned by `list_db_systems`. -/
structure DbSystem where
  display_name : String
  shape : String
  lifecycle_state : String
  availability_domain : String
  cpu_core_count : Option Nat
  database_edition : Option String
  tags : TagSet
  id : String
deriving Repr, DecidableEq

/-- An autonomous database returned by `list_autonomous_databases`. -/
structure AutonomousDb where
  display_name : String
  cpu_core_count : Nat
  lifecycle_state : String
  db_workload : Option String
  tags : TagSet
  id : String
deriving Repr, DecidableEq

/-- A compute instance returned by `list_instances`; `time_created` carries
the already-formatted creation timestamp. -/
structure Instance where
  display_name : String
  shape : String
  lifecycle_state : String
  availability_domain : String
  time_created : String
  tags : TagSet
  id : String
deriving Repr, DecidableEq

/-- A block volume returned by `list_volumes`. -/
structure Volume where
  display_name : String
  size_in_gbs : Nat
  vpus_per_gb : Option Nat
  availability_domain : String
  lifecycle_state : String
  time_created : String
  tags : TagSet
  id : String
deriving Repr, DecidableEq

/-- A volume attachment record returned by `list_volume_attachments`. -/
structure VolumeAttachment where
  id : String
deriving Repr, DecidableEq

/-- A public IP returned by `list_public_ips`; `assigned_entity_id` is
falsy when `none` or the empty string. -/
structure PublicIp where
  display_name : String
  ip_address : String
  scope : String
  lifetime : String
  lifecycle_state : String
  assigned_entity_id : Option String
  time_created : String
  tags : TagSet
  id : String
deriving Repr, DecidableEq

/-- Python truthiness of an optional string attribute. -/
def optStrTruthy : Option String → Bool
  | none => false
  | some s => s ≠ ""

/-- A load balancer summary returned by `list_load_balancers`. -/
structure LoadBalancer where
  display_name : String
  shape_name : String
  lifecycle_state : String
  ip_addresses : List String
  time_created : String
  tags : TagSet
  id : String
deriving Repr, DecidableEq

/-- A backend set inside a load balancer's detail record. -/
structure BackendSet where
  backends : List String
deriving Repr, DecidableEq

/-- The detail record returned by `get_load_balancer`; `backend_sets` is a
possibly-absent dict of named backend sets. -/
structure LbDetails where
  backend_sets : Option (List (String × BackendSet))
deriving Repr, DecidableEq

/-- A TCP destination port range. -/
structure PortRange where
  min : Nat
  max : Nat
deriving Repr, DecidableEq

/-- TCP options on an ingress rule; the destination port range may be
absent. -/
structure TcpOptions where
  destination_port_range : Option PortRange
deriving Repr, DecidableEq

/-- An ingress security rule. -/
structure IngressRule where
  protocol : String
  source : String
  tcp_options : Option TcpOptions
deriving Repr, DecidableEq

/-- A security list returned by `list_security_lists`. -/
structure SecurityList where
  display_name : String
  lifecycle_state : String
  ingress_security_rules : List IngressRule
  tags : TagSet
  id : String
deriving Repr, DecidableEq

/-- A VCN returned by `list_vcns`. -/
structure Vcn where
  display_name : String
  lifecycle_state : String
  id : String
deriving Repr, DecidableEq

/-! ## Finding rows (the dicts appended by each scanner) -/

/-- A row of the `database_instances` category. -/
structure DbFinding where
  resource_type : String
  name : String
  shape : String
  lifecycle_state : String
  availability_domain : String
  cpu_core_count : Option Nat
  database_edition : Option String
  compartment_id : String
  tags : String
  resource_id : String
deriving Repr, DecidableEq

/-- A row of the two compute categories. -/
structure ComputeFinding where
  instance_name : String
  shape : String
  lifecycle_state : String
  availability_domain : String
  time_created : String
  compartment_id : String
  tags : String
  resource_id : String
deriving Repr, DecidableEq

/-- A row of the `unattached_volumes` category. -/
structure VolFinding where
  volume_name : String
  size_gb : Nat
  volume_type : Option Nat
  availability_domain : String
  lifecycle_state : String
  time_created : String
  compartment_id : String
  tags : String
  resource_id : String
deriving Repr, DecidableEq

/-- A row of the `unused_public_ips` category. -/
structure IpFinding where
  public_ip_name : String
  ip_address : String
  scope : String
  lifetime : String
  lifecycle_state : String
  time_created : String
  compartment_id : String
  tags : String
  resource_id : String
deriving Repr, DecidableEq

/-- A row of the `empty_load_balancers` category. -/
structure LbFinding where
  load_balancer_name : String
  shape : String
  lifecycle_state : String
  ip_addresses : String
  time_created : String
  compartment_id : String
  tags : String
  resource_id : String
deriving Repr, DecidableEq

/-- A row of the `permissive_security_lists` category. -/
structure SecFinding where
  security_list_name : String
  vcn_name : String
  lifecycle_state : String
  permissive_rules_count : Nat
  permissive_rules : String
  compartment_id : String
  tags : String
  resource_id : String
deriving Repr, DecidableEq

/-! ## Scanners -/

/-- Accept predicate of the DB-system branch of `check_database_instances`. -/
def dbSystemPred (d : DbSystem) : Bool :=
  is_dev_test_resource d.tags && production_db_shapes.contains d.shape &&
    d.lifecycle_state == "AVAILABLE"

/-- The DB-system finding row. -/
def mkDbSystemFinding (cid : String) (d : DbSystem) : DbFinding :=
  ⟨"DB System", d.display_name, d.shape, d.lifecycle_state, d.availability_domain,
   d.cpu_core_count, d.database_edition, cid, format_tags d.tags, d.id⟩

/-- Accept predicate of the autonomous-database branch. -/
def adbPred (a : AutonomousDb) : Bool :=
  is_dev_test_resource a.tags && decide (4 ≤ a.cpu_core_count) &&
    a.lifecycle_state == "AVAILABLE"

/-- The autonomous-database finding row; the shape column is the synthetic
label `"<n> OCPUs"`. -/
def mkAdbFinding (cid : String) (a : AutonomousDb) : DbFinding :=
  ⟨"Autonomous Database", a.display_name, toString a.cpu_core_count ++ " OCPUs",
   a.lifecycle_state, "N/A", some a.cpu_core_count, a.db_workload, cid,
   format_tags a.tags, a.id⟩

/-- `check_database_instances`: the DB-system listing feeds the first loop,
the autonomous-database listing the second; an exception in the second
listing keeps the rows already appended by the first. -/
def check_database_instances (lds : Except String (List DbSystem))
    (lad : Except String (List AutonomousDb)) (cid : String) : List DbFinding :=
  match lds with
  | .error _ => []
  | .ok dbs =>
    let r1 := (dbs.filter dbSystemPred).map (mkDbSystemFinding cid)
    match lad with
    | .error _ => r1
    | .ok adbs => r1 ++ (adbs.filter adbPred).map (mkAdbFinding cid)

/-- The shared filter of the compute loop: dev/test tag and lifecycle state
in `['RUNNING', 'STOPPED']`. -/
def computeBasePred (i : Instance) : Bool :=
  is_dev_test_resource i.tags &&
    (["RUNNING", "STOPPED"] : List String).contains i.lifecycle_state

/-- The compute finding row (used by both compute categories). -/
def mkComputeFinding (cid : String) (i : Instance) : ComputeFinding :=
  ⟨i.display_name, i.shape, i.lifecycle_state, i.availability_domain,
   i.time_created, cid, format_tags i.tags, i.id⟩

/-- The single pass of `check_compute_instances` over the listing: each
instance passing the shared filter may be appended to the
missing-automation list and, independently, to the oversized list. -/
def computePass (cid : String) : List Instance → List ComputeFinding × List ComputeFinding
  | [] => ([], [])
  | i :: rest =>
    let p := computePass cid rest
    let keep := computeBasePred i
    ((if keep && !has_automation_tags i.tags then mkComputeFinding cid i :: p.1 else p.1),
     (if keep && oversized_compute_shapes.contains i.shape then mkComputeFinding cid i :: p.2 else p.2))

/-- Result of `check_compute_instances`, with the number of
`list_instances` calls the scanner issued recorded explicitly (the body has
exactly one call site). -/
structure ComputeScan where
  missing_automation : List ComputeFinding
  oversized_instances : List ComputeFinding
  list_instances_calls : Nat
deriving Repr, DecidableEq

/-- `check_compute_instances`: one listing call; on an exception both lists
are returned as accumulated (empty, since the exception precedes the loop). -/
def check_compute_instances (li : Except String (List Instance)) (cid : String) : ComputeScan :=
  match li with
  | .error _ => ⟨[], [], 1⟩
  | .ok instances =>
    let p := computePass cid instances
    ⟨p.1, p.2, 1⟩

/-- Filter of the volume loop before the secondary attachment lookup. -/
def volPred (v : Volume) : Bool :=
  is_dev_test_resource v.tags && v.lifecycle_state == "AVAILABLE"

/-- The unattached-volume finding row. -/
def mkVolFinding (cid : String) (v : Volume) : VolFinding :=
  ⟨v.display_name, v.size_in_gbs, v.vpus_per_gb, v.availability_domain,
   v.lifecycle_state, v.time_created, cid, format_tags v.tags, v.id⟩

/-- The volume loop: an exception from the per-volume attachment lookup
aborts the rest of the traversal (the rows produced before it are kept by
the enclosing recursion). -/
def scanVolumes (latt : String → Except String (List VolumeAttachment))
    (cid : String) : List Volume → List VolFinding
  | [] => []
  | v :: rest =>
    if volPred v then
      match latt v.id with
      | .error _ => []
      | .ok atts =>
        (if atts.isEmpty then [mkVolFinding cid v] else []) ++ scanVolumes latt cid rest
    else scanVolumes latt cid rest

/-- `check_unattached_volumes`. -/
def check_unattached_volumes (lv : Except String (List Volume))
    (latt : String → Except String (List VolumeAttachment)) (cid : String) : List VolFinding :=
  match lv with
  | .error _ => []
  | .ok vols => scanVolumes latt cid vols

/-- Accept predicate of `check_unused_public_ips`. -/
def ipPred (p : PublicIp) : Bool :=
  is_dev_test_resource p.tags && p.lifecycle_state == "AVAILABLE" &&
    !optStrTruthy p.assigned_entity_id

/-- The unused-public-IP finding row. -/
def mkIpFinding (cid : String) (p : PublicIp) : IpFinding :=
  ⟨p.display_name, p.ip_address, p.scope, p.lifetime, p.lifecycle_state,
   p.time_created, cid, format_tags p.tags, p.id⟩

/-- `check_unused_public_ips`. -/
def check_unused_public_ips (lp : Except String (List PublicIp)) (cid : String) : List IpFinding :=
  match lp with
  | .error _ => []
  | .ok ips => (ips.filter ipPred).map (mkIpFinding cid)

/-- Filter of the load-balancer loop before the detail fetch. -/
def lbPred (lb : LoadBalancer) : Bool :=
  is_dev_test_resource lb.tags && lb.lifecycle_state == "ACTIVE"

/-- `has_backends` as computed over the detail record: some backend set has
a non-empty backend list. -/
def lbHasBackends (d : LbDetails) : Bool :=
  match d.backend_sets with
  | none => false
  | some sets => sets.any (fun s => !s.2.backends.isEmpty)

/-- The empty-load-balancer finding row. -/
def mkLbFinding (cid : String) (lb : LoadBalancer) : LbFinding :=
  ⟨lb.display_name, lb.shape_name, lb.lifecycle_state, joinSemi lb.ip_addresses,
   lb.time_created, cid, format_tags lb.tags, lb.id⟩

/-- The load-balancer loop: an exception from the per-balancer detail fetch
aborts the rest of the traversal. -/
def scanLbs (glb : String → Except String LbDetails)
    (cid : String) : List LoadBalancer → List LbFinding
  | [] => []
  | lb :: rest =>
    if lbPred lb then
      match glb lb.id with
      | .error _ => []
      | .ok d =>
        (if !lbHasBackends d then [mkLbFinding cid lb] else []) ++ scanLbs glb cid rest
    else scanLbs glb cid rest

/-- `check_empty_load_balancers`. -/
def check_empty_load_balancers (llb : Except String (List LoadBalancer))
    (glb : String → Except String LbDetails) (cid : String) : List LbFinding :=
  match llb with
  | .error _ => []
  | .ok lbs => scanLbs glb cid lbs

/-- The ingress-rule condition of `check_permissive_security_lists`:
source `0.0.0.0/0` and (`tcp_options` falsy, or a destination port range is
present with `min` equal to 22 or 3389). -/
def rule_matches (r : IngressRule) : Bool :=
  r.source == "0.0.0.0/0" &&
    (match r.tcp_options with
     | none => true
     | some t =>
       match t.destination_port_range with
       | none => false
       | some pr => pr.min == 22 || pr.min == 3389)

/-- The rendered rule description: `TCP:<min>` when both `tcp_options` and a
destination port range are present, else `TCP:ALL`. -/
def renderRule (r : IngressRule) : String :=
  "TCP:" ++
    (match r.tcp_options with
     | some t =>
       match t.destination_port_range with
       | some pr => toString pr.min
       | none => "ALL"
     | none => "ALL")

/-- Filter of the security-list loop. -/
def secListPred (l : SecurityList) : Bool :=
  is_dev_test_resource l.tags && l.lifecycle_state == "AVAILABLE"

/-- Processing of one security list: when the filter passes and at least one
ingress rule matches, a finding with the matched-rule count and joined
descriptions is produced. -/
def processSecList (cid : String) (vcn : Vcn) (l : SecurityList) : Option SecFinding :=
  if secListPred l then
    let pr := (l.ingress_security_rules.filter rule_matches).map renderRule
    if pr ≠ [] then
      some ⟨l.display_name, vcn.display_name, l.lifecycle_state, pr.length,
            joinSemi pr, cid, format_tags l.tags, l.id⟩
    else none
  else none

/-- The VCN loop: only `AVAILABLE` VCNs are enumerated; an exception from the
per-VCN security-list listing aborts the rest of the traversal. -/
def scanVcns (lsec : String → Except String (List SecurityList))
    (cid : String) : List Vcn → List SecFinding
  | [] => []
  | vcn :: rest =>
    if vcn.lifecycle_state == "AVAILABLE" then
      match lsec vcn.id with
      | .error _ => []
      | .ok secs => secs.filterMap (processSecList cid vcn) ++ scanVcns lsec cid rest
    else scanVcns lsec cid rest

/-- `check_permissive_security_lists`. -/
def check_permissive_security_lists (lvcns : Except String (List Vcn))
    (lsec : String → Except String (List SecurityList)) (cid : String) : List SecFinding :=
  match lvcns with
  | .error _ => []
  | .ok vcns => scanVcns lsec cid vcns

/-! ## Aggregator and report writer -/

/-- The API clients a compartment analysis uses, with each listing call an
`Except` value and each secondary per-resource call a function into
`Except`. -/
structure Clients where
  list_db_systems : Except String (List DbSystem)
  list_autonomous_databases : Except String (List AutonomousDb)
  list_instances : Except String (List Instance)
  list_volumes : Except String (List Volume)
  list_volume_attachments : String → Except String (List VolumeAttachment)
  list_public_ips : Except String (List PublicIp)
  list_load_balancers : Except String (List LoadBalancer)
  get_load_balancer : String → Except String LbDetails
  list_vcns : Except String (List Vcn)
  list_security_lists : String → Except String (List SecurityList)

/-- The seven finding collections, in the dict order of
`analyze_compartment`. -/
structure Results where
  database_instances : List DbFinding
  compute_missing_automation : List ComputeFinding
  oversized_compute : List ComputeFinding
  unattached_volumes : List VolFinding
  unused_public_ips : List IpFinding
  empty_load_balancers : List LbFinding
  permissive_security_lists : List SecFinding
deriving Repr, DecidableEq

/-- `analyze_compartment`: each category is computed by its own scanner. -/
def analyze_compartment (c : Clients) (cid : String) : Results :=
  let compute := check_compute_instances c.list_instances cid
  { database_instances := check_database_instances c.list_db_systems c.list_autonomous_databases cid
    compute_missing_automation := compute.missing_automation
    oversized_compute := compute.oversized_instances
    unattached_volumes := check_unattached_volumes c.list_volumes c.list_volume_attachments cid
    unused_public_ips := check_unused_public_ips c.list_public_ips cid
    empty_load_balancers := check_empty_load_balancers c.list_load_balancers c.get_load_balancer cid
    permissive_security_lists := check_permissive_security_lists c.list_vcns c.list_security_lists cid }

/-- A compartment record as built by `get_compartments`. -/
structure Compartment where
  id : String
  name : String
  lifecycle_state : String
deriving Repr, DecidableEq

/-- Category-wise extension of the running collections (`extend` in the
merge loop of `main`). -/
def mergeResults (a b : Results) : Results :=
  ⟨a.database_instances ++ b.database_instances,
   a.compute_missing_automation ++ b.compute_missing_automation,
   a.oversized_compute ++ b.oversized_compute,
   a.unattached_volumes ++ b.unattached_volumes,
   a.unused_public_ips ++ b.unused_public_ips,
   a.empty_load_balancers ++ b.empty_load_balancers,
   a.permissive_security_lists ++ b.permissive_security_lists⟩

/-- The empty running collections `all_results` starts from. -/
def emptyResults : Results := ⟨[], [], [], [], [], [], []⟩

/-- The compartment loop of `main`: inactive compartments are skipped with a
warning; active ones are analyzed and merged in order. -/
def aggregate (clientsFor : String → Clients) : List Compartment → Results
  | [] => emptyResults
  | comp :: rest =>
    if comp.lifecycle_state == "ACTIVE" then
      mergeResults (analyze_compartment (clientsFor comp.id) comp.id) (aggregate clientsFor rest)
    else aggregate clientsFor rest

/-- `total_issues`: the grand total over the seven categories, in dict
order. -/
def totalIssues (r : Results) : Nat :=
  r.database_instances.length + r.compute_missing_automation.length +
  r.oversized_compute.length + r.unattached_volumes.length +
  r.unused_public_ips.length + r.empty_load_balancers.length +
  r.permissive_security_lists.length

/-- The CSV file name `os.path.join(output_path, f"<label>_<ts>.csv")`. -/
def csvName (path label ts : String) : String :=
  path ++ "/" ++ label ++ "_" ++ ts ++ ".csv"

/-- `export_to_csv`: one `(category, filename)` pair per non-empty category,
in dict order, using the `report_mappings` labels. -/
def export_to_csv (r : Results) (path ts : String) : List (String × String) :=
  (if r.database_instances ≠ [] then
    [("database_instances", csvName path "Database_Production_Shapes" ts)] else []) ++
  (if r.compute_missing_automation ≠ [] then
    [("compute_missing_automation", csvName path "Compute_Missing_Automation_Tags" ts)] else []) ++
  (if r.oversized_compute ≠ [] then
    [("oversized_compute", csvName path "Oversized_Compute_Instances" ts)] else []) ++
  (if r.unattached_volumes ≠ [] then
    [("unattached_volumes", csvName path "Unattached_Block_Volumes" ts)] else []) ++
  (if r.unused_public_ips ≠ [] then
    [("unused_public_ips", csvName path "Unused_Public_IPs" ts)] else []) ++
  (if r.empty_load_balancers ≠ [] then
    [("empty_load_balancers", csvName path "Empty_Load_Balancers" ts)] else []) ++
  (if r.permissive_security_lists ≠ [] then
    [("permissive_security_lists", csvName path "Permissive_Security_Lists" ts)] else [])

/-- The per-category summary counts `main` always logs, in log order. -/
def summaryCounts (r : Results) : List (String × Nat) :=
  [("database_instances", r.database_instances.length),
   ("compute_missing_automation", r.compute_missing_automation.length),
   ("oversized_compute", r.oversized_compute.length),
   ("unattached_volumes", r.unattached_volumes.length),
   ("unused_public_ips", r.unused_public_ips.length),
   ("empty_load_balancers", r.empty_load_balancers.length),
   ("permissive_security_lists", r.permissive_security_lists.length)]

/-- The observable output of the reporting phase of `main`: the CSV files
written, whether the HTML report was generated, the per-category summary
counts (logged in every run), `grand_total` — the `total_issues` value
`main` computes in every run — and `total_printed`, the numeric grand-total
log line, which `main` emits only inside `if total_issues > 0` (the
zero-findings branch logs a no-waste message with no number). -/
structure RunOutput where
  csv_files : List (String × String)
  html_generated : Bool
  summary_counts : List (String × Nat)
  grand_total : Nat
  total_printed : Option Nat
deriving Repr, DecidableEq

/-- The reporting phase of `main`: CSV and HTML outputs happen only when the
grand total is positive; the per-category summary is produced
unconditionally; the grand-total line is printed only when the total is
positive. -/
def runReports (r : Results) (path ts : String) : RunOutput :=
  let total := totalIssues r
  { csv_files := if total > 0 then export_to_csv r path ts else []
    html_generated := decide (total > 0)
    summary_counts := summaryCounts r
    grand_total := total
    total_printed := if total > 0 then some total else none }

/-- The whole classification pipeline as a function of the resource
inventory (clients per compartment), the compartment list, and the output
path/timestamp. -/
def runPipeline (clientsFor : String → Clients) (comps : List Compartment)
    (path ts : String) : Results × RunOutput :=
  let r := aggregate clientsFor comps
  (r, runReports r path ts)

/-! ## Concrete fixtures and spec-side definitions used by the theorems -/

/-- An available VCN fixture. -/
def exVcn : Vcn := ⟨"vcn-1", "AVAILABLE", "ocid1.vcn.1"⟩

/-- A dev-tagged tag set fixture. -/
def devTags : TagSet := ⟨some [("env", "dev")], none⟩

/-- A dev-tagged available security list with one all-ports ingress rule
from `0.0.0.0/0`. -/
def openSecList : SecurityList :=
  ⟨"sl-open", "AVAILABLE", [⟨"all", "0.0.0.0/0", none⟩], devTags, "ocid1.seclist.open"⟩

/-- The same list with the rule's source restricted to `10.0.0.0/8`. -/
def privSecList : SecurityList :=
  ⟨"sl-priv", "AVAILABLE", [⟨"all", "10.0.0.0/8", none⟩], devTags, "ocid1.seclist.priv"⟩

/-- A dev-tagged available security list whose single rule from `0.0.0.0/0`
carries a TCP destination port range 22–80 (a range, not a single port). -/
def rangeSecList : SecurityList :=
  ⟨"sl-range", "AVAILABLE", [⟨"6", "0.0.0.0/0", some ⟨some ⟨22, 80⟩⟩⟩], devTags,
   "ocid1.seclist.range"⟩

/-- A dev-tagged available security list whose single rule from `0.0.0.0/0`
has TCP options present but no destination port range. -/
def noRangeSecList : SecurityList :=
  ⟨"sl-norange", "AVAILABLE", [⟨"6", "0.0.0.0/0", some ⟨none⟩⟩], devTags,
   "ocid1.seclist.norange"⟩

/-- Following the claim's words, not the code: "TCP options impose no port
restriction" — options absent, or present without a destination port
range. -/
def ruleNoPortRestriction (r : IngressRule) : Bool :=
  match r.tcp_options with
  | none => true
  | some t => t.destination_port_range.isNone

/-- Following the claim's words, not the code: "restrict the rule to port 22
or port 3389" — a destination port range containing exactly port 22 or
exactly port 3389. -/
def ruleOnlyPort22or3389 (r : IngressRule) : Bool :=
  match r.tcp_options with
  | none => false
  | some t =>
    match t.destination_port_range with
    | none => false
    | some pr => (pr.min == 22 && pr.max == 22) || (pr.min == 3389 && pr.max == 3389)

/-- The flagging condition as the claim words it, for comparison with the
code's `processSecList`. -/
def secListFlaggedSpec (l : SecurityList) : Bool :=
  is_dev_test_resource l.tags && l.lifecycle_state == "AVAILABLE" &&
    l.ingress_security_rules.any (fun r =>
      r.source == "0.0.0.0/0" && (ruleNoPortRestriction r || ruleOnlyPort22or3389 r))

/-- Clients for a compartment holding no resources at all: every listing
succeeds with the empty list and the load-balancer detail fetch returns a
record without backend sets. -/
def emptyClients : Clients :=
  { list_db_systems := .ok []
    list_autonomous_databases := .ok []
    list_instances := .ok []
    list_volumes := .ok []
    list_volume_attachments := fun _ => .ok []
    list_public_ips := .ok []
    list_load_balancers := .ok []
    get_load_balancer := fun _ => .ok ⟨none⟩
    list_vcns := .ok []
    list_security_lists := fun _ => .ok [] }

/-- A running instance with no tags at all: it lacks every automation-tag
key, yet fails the dev/test filter. -/
def noTagInstance : Instance :=
  ⟨"inst-untagged", "VM.Standard2.1", "RUNNING", "AD-1", "2025-01-01 00:00:00",
   absentTags, "ocid1.instance.untagged"⟩

/-- A dev-tagged available volume fixture whose id is its name. -/
def exVol (n : String) : Volume :=
  ⟨n, 100, none, "AD-1", "AVAILABLE", "2025-01-01 00:00:00", devTags, n⟩

/-- An attachment lookup that raises on the first volume and returns no
attachments for every other volume. -/
def failFirstLookup : String → Except String (List VolumeAttachment) :=
  fun i => if i == "vol-1" then .error "boom" else .ok []

/-- An attachment lookup that raises on the second volume and returns no
attachments for every other volume. -/
def failSecondLookup : String → Except String (List VolumeAttachment) :=
  fun i => if i == "vol-2" then .error "boom" else .ok []

/-- Every finding of every category originates from a listed resource that
satisfies the category's full accept predicate (dev/test tag, the
category-specific condition, and the accepted lifecycle state, all folded
into the scanner predicates and the secondary-call conditions). -/
def findingInvariant (c : Clients) (cid : String) (r : Results) : Prop :=
  (∀ f ∈ r.database_instances,
    (∃ dbs, c.list_db_systems = .ok dbs ∧
      ∃ d ∈ dbs, dbSystemPred d = true ∧ f = mkDbSystemFinding cid d) ∨
    (∃ adbs, c.list_autonomous_databases = .ok adbs ∧
      ∃ a ∈ adbs, adbPred a = true ∧ f = mkAdbFinding cid a)) ∧
  (∀ f ∈ r.compute_missing_automation,
    ∃ insts, c.list_instances = .ok insts ∧ ∃ i ∈ insts, computeBasePred i = true ∧
      has_automation_tags i.tags = false ∧ f = mkComputeFinding cid i) ∧
  (∀ f ∈ r.oversized_compute,
    ∃ insts, c.list_instances = .ok insts ∧ ∃ i ∈ insts, computeBasePred i = true ∧
      oversized_compute_shapes.contains i.shape = true ∧ f = mkComputeFinding cid i) ∧
  (∀ f ∈ r.unattached_volumes,
    ∃ vols, c.list_volumes = .ok vols ∧ ∃ v ∈ vols, volPred v = true ∧
      c.list_volume_attachments v.id = .ok [] ∧ f = mkVolFinding cid v) ∧
  (∀ f ∈ r.unused_public_ips,
    ∃ ips, c.list_public_ips = .ok ips ∧ ∃ p ∈ ips, ipPred p = true ∧ f = mkIpFinding cid p) ∧
  (∀ f ∈ r.empty_load_balancers,
    ∃ lbs, c.list_load_balancers = .ok lbs ∧ ∃ lb ∈ lbs, lbPred lb = true ∧
      (∃ d, c.get_load_balancer lb.id = .ok d ∧ lbHasBackends d = false) ∧
      f = mkLbFinding cid lb) ∧
  (∀ f ∈ r.permissive_security_lists,
    ∃ vcns, c.list_vcns = .ok vcns ∧ ∃ vcn ∈ vcns, vcn.lifecycle_state = "AVAILABLE" ∧
      ∃ ls, c.list_security_lists vcn.id = .ok ls ∧ ∃ l ∈ ls, secListPred l = true ∧
        l.ingress_security_rules.filter rule_matches ≠ [] ∧ processSecList cid vcn l = some f)

/-! ## Theorems: the tag classifier -/

/-- Every rendered tag string contains the character `'='`. -/
lemma eq_char_mem_tagStrings (t : TagSet) (s : String) (hs : s ∈ tagStrings t) :
    '=' ∈ s.data := by
  simp only [tagStrings, List.mem_append, List.mem_map] at hs
  rcases hs with ⟨kv, _, rfl⟩ | ⟨nkv, _, rfl⟩
  · rw [String.data_append, String.data_append]
    exact List.mem_append_left _ (List.mem_append_right _ (by decide))
  · rw [String.data_append]
    refine List.mem_append_left _ ?_
    rw [String.data_append]
    exact List.mem_append_right _ (by decide)

/-- A join of at least one `'='`-bearing string is never the sentinel. -/
lemma joinSemi_cons_ne_NA (s : String) (rest : List String) (h : '=' ∈ s.data) :
    joinSemi (s :: rest) ≠ "N/A" := by
  cases rest with
  | nil =>
    intro he
    simp only [joinSemi] at he
    rw [he] at h
    exact absurd h (by decide)
  | cons r t =>
    intro he
    have hm : '=' ∈ ("N/A" : String).data := by
      rw [← he, show joinSemi (s :: r :: t) = s ++ "; " ++ joinSemi (r :: t) from rfl,
        String.data_append, String.data_append]
      exact List.mem_append_left _ (List.mem_append_left _ h)
    exact absurd hm (by decide)

/-- Claim C6: `is_dev_test_resource` returns true iff some free-form or
namespaced tag value, lowercased, is exactly one of
{dev, test, development, testing, staging, qa}; it is false on an empty or
absent tag set, true whenever some value lowercases to `"staging"`, and
false when the only value is `"production"`. -/
theorem is_dev_test_spec :
    (∀ t : TagSet, is_dev_test_resource t = true ↔
      ∃ v ∈ t.allValues, strLower v ∈ dev_test_tags) ∧
    is_dev_test_resource emptyTags = false ∧
    is_dev_test_resource absentTags = false ∧
    (∀ t : TagSet, (∃ v ∈ t.allValues, strLower v = "staging") →
      is_dev_test_resource t = true) ∧
    is_dev_test_resource ⟨some [("env", "production")], some []⟩ = false := by
  have key : ∀ t : TagSet, is_dev_test_resource t = true ↔
      ∃ v ∈ t.allValues, strLower v ∈ dev_test_tags := by
    intro t
    simp only [is_dev_test_resource, TagSet.allValues, Bool.or_eq_true, List.any_eq_true,
      List.mem_append, List.mem_map, List.contains, List.elem_iff]
    constructor
    · rintro (⟨kv, hkv, h⟩ | ⟨nkv, hn, h⟩)
      · exact ⟨kv.2, Or.inl ⟨kv, hkv, rfl⟩, h⟩
      · exact ⟨nkv.2.2, Or.inr ⟨nkv, hn, rfl⟩, h⟩
    · rintro ⟨v, hv, h⟩
      rcases hv with ⟨kv, hkv, rfl⟩ | ⟨nkv, hn, rfl⟩
      · exact Or.inl ⟨kv, hkv, h⟩
      · exact Or.inr ⟨nkv, hn, h⟩
  refine ⟨key, by decide, by decide, ?_, by decide⟩
  rintro t ⟨v, hv, hl⟩
  exact (key t).2 ⟨v, hv, by rw [hl]; decide⟩

/-- Witness for C6: the staging implication applied to a concrete tag set. -/
theorem is_dev_test_spec_witness :
    (∃ v ∈ (⟨some [("env", "Staging")], none⟩ : TagSet).allValues, strLower v = "staging") ∧
    is_dev_test_resource ⟨some [("env", "Staging")], none⟩ = true :=
  ⟨⟨"Staging", by decide, by decide⟩,
   is_dev_test_spec.2.2.2.1 _ ⟨"Staging", by decide, by decide⟩⟩

/-- Claim C7: `format_tags` renders free-form tags as `key=value` and
namespaced tags as `namespace.key=value`, joined by `; `, and returns the
sentinel `"N/A"` exactly when no tag pairs exist; in particular on the
empty tag set it is `"N/A"` and on `{env: dev}` it is `"env=dev"`. -/
theorem format_tags_spec :
    (∀ t : TagSet, format_tags t = "N/A" ↔ (t.freeformPairs = [] ∧ t.definedTriples = [])) ∧
    (∀ t : TagSet, tagStrings t ≠ [] → format_tags t = joinSemi (tagStrings t)) ∧
    format_tags emptyTags = "N/A" ∧
    format_tags ⟨some [("env", "dev")], none⟩ = "env=dev" ∧
    format_tags ⟨some [("a", "1")], some [("ns", [("k", "v")])]⟩ = "a=1; ns.k=v" := by
  refine ⟨fun t => ?_, fun t h => by rw [format_tags, if_pos h], by decide, by decide, by decide⟩
  by_cases h : tagStrings t = []
  · have hb : t.freeformPairs = [] ∧ t.definedTriples = [] := by
      simpa [tagStrings] using h
    simp [format_tags, h, hb]
  · cases hts : tagStrings t with
    | nil => exact absurd hts h
    | cons s rest =>
      have hm : '=' ∈ s.data :=
        eq_char_mem_tagStrings t s (hts ▸ List.mem_cons_self s rest)
      have hne : format_tags t ≠ "N/A" := by
        rw [format_tags, if_pos h, hts]
        exact joinSemi_cons_ne_NA s rest hm
      constructor
      · intro he; exact absurd he hne
      · rintro ⟨hf, hd⟩
        exact absurd (by simp [tagStrings, hf, hd] : tagStrings t = []) h

/-- Witness for C7: the join equation applied to a concrete tag set. -/
theorem format_tags_spec_witness :
    tagStrings (⟨some [("env", "dev")], none⟩ : TagSet) ≠ [] ∧
    format_tags ⟨some [("env", "dev")], none⟩ =
      joinSemi (tagStrings ⟨some [("env", "dev")], none⟩) :=
  ⟨by decide, format_tags_spec.2.1 _ (by decide)⟩

/-- Claim C10: an ingress rule from `0.0.0.0/0` with absent TCP options is
counted as permissive regardless of its protocol and rendered `TCP:ALL`;
whenever such a rule is among a security list's ingress rules, `TCP:ALL`
appears among the matched rule descriptions. -/
theorem open_rule_counted_spec :
    (∀ proto : String, rule_matches ⟨proto, "0.0.0.0/0", none⟩ = true ∧
      renderRule ⟨proto, "0.0.0.0/0", none⟩ = "TCP:ALL") ∧
    (∀ (proto : String) (rules : List IngressRule),
      (⟨proto, "0.0.0.0/0", none⟩ : IngressRule) ∈ rules →
      "TCP:ALL" ∈ (rules.filter rule_matches).map renderRule) := by
  refine ⟨fun proto => ⟨rfl, rfl⟩, fun proto rules h => ?_⟩
  simp only [List.mem_map, List.mem_filter]
  exact ⟨⟨proto, "0.0.0.0/0", none⟩, ⟨h, rfl⟩, rfl⟩

/-- Witness for C10: a UDP all-ports rule in a one-rule list is counted and
rendered `TCP:ALL`. -/
theorem open_rule_counted_spec_witness :
    (⟨"17", "0.0.0.0/0", none⟩ : IngressRule) ∈
      [(⟨"17", "0.0.0.0/0", none⟩ : IngressRule)] ∧
    "TCP:ALL" ∈
      (([(⟨"17", "0.0.0.0/0", none⟩ : IngressRule)].filter rule_matches).map renderRule) :=
  ⟨by decide, open_rule_counted_spec.2 "17" _ (by decide)⟩

/-! ## Theorems: the security-list scanner (C1) -/

/-- Counterexample to claim C1: the code flags a list whose rule is open to
the port RANGE 22–80 (not restricted to port 22 or 3389), and does not flag
a list whose rule has TCP options present without any port range (which
imposes no port restriction); both contradict the claimed predicate. -/
theorem secList_flag_counterexample :
    (processSecList "c" exVcn rangeSecList).isSome = true ∧
    secListFlaggedSpec rangeSecList = false ∧
    (processSecList "c" exVcn noRangeSecList).isSome = false ∧
    secListFlaggedSpec noRangeSecList = true := by decide

/-- The code's ingress-rule condition, spelled out. -/
lemma rule_matches_iff (r : IngressRule) :
    rule_matches r = true ↔ (r.source = "0.0.0.0/0" ∧
      (r.tcp_options = none ∨ ∃ t pr, r.tcp_options = some t ∧
        t.destination_port_range = some pr ∧ (pr.min = 22 ∨ pr.min = 3389))) := by
  obtain ⟨proto, src, opts⟩ := r
  cases opts with
  | none => simp [rule_matches]
  | some t =>
    obtain ⟨dpr⟩ := t
    cases dpr with
    | none => simp [rule_matches]
    | some pr => simp [rule_matches]

/-- The security-list filter, spelled out. -/
lemma secListPred_iff (l : SecurityList) :
    secListPred l = true ↔
      (is_dev_test_resource l.tags = true ∧ l.lifecycle_state = "AVAILABLE") := by
  simp [secListPred]

/-- Claim C1 as amended: a security list is flagged iff it has a dev/test
tag, lifecycle `AVAILABLE`, and at least one ingress rule from `0.0.0.0/0`
whose TCP options are absent, or whose destination port range is present
with MINIMUM port 22 or 3389; the matched-rule count is the number of
matching rules; the all-ports example is flagged with count 1 and the
`10.0.0.0/8` variant is not flagged. -/
theorem secList_flag_amended :
    (∀ (cid : String) (vcn : Vcn) (l : SecurityList),
      (processSecList cid vcn l).isSome = true ↔
        (is_dev_test_resource l.tags = true ∧ l.lifecycle_state = "AVAILABLE" ∧
         ∃ r ∈ l.ingress_security_rules, r.source = "0.0.0.0/0" ∧
           (r.tcp_options = none ∨ ∃ t pr, r.tcp_options = some t ∧
             t.destination_port_range = some pr ∧ (pr.min = 22 ∨ pr.min = 3389)))) ∧
    (∀ (cid : String) (vcn : Vcn) (l : SecurityList) (f : SecFinding),
      processSecList cid vcn l = some f →
      f.permissive_rules_count = (l.ingress_security_rules.filter rule_matches).length) ∧
    ((check_permissive_security_lists (.ok [exVcn]) (fun _ => .ok [openSecList]) "c").map
      SecFinding.permissive_rules_count = [1]) ∧
    check_permissive_security_lists (.ok [exVcn]) (fun _ => .ok [privSecList]) "c" = [] := by
  refine ⟨fun cid vcn l => ?_, fun cid vcn l f h => ?_, by decide, by decide⟩
  · rw [processSecList]
    by_cases hp : secListPred l = true
    · rw [if_pos hp]
      rcases (secListPred_iff l).1 hp with ⟨h1, h2⟩
      by_cases hq : (l.ingress_security_rules.filter rule_matches).map renderRule ≠ []
      · rw [if_pos hq]
        simp only [Option.isSome_some, true_iff]
        refine ⟨h1, h2, ?_⟩
        have hf : l.ingress_security_rules.filter rule_matches ≠ [] := by
          intro hn
          exact hq (by rw [hn]; rfl)
        rcases List.exists_mem_of_ne_nil _ hf with ⟨r, hr⟩
        have hrm := List.mem_filter.1 hr
        exact ⟨r, hrm.1, (rule_matches_iff r).1 hrm.2⟩
      · rw [if_neg hq]
        push_neg at hq
        simp only [Option.isSome_none, Bool.false_eq_true, false_iff]
        rintro ⟨-, -, r, hr, hsrc⟩
        have hm : rule_matches r = true := (rule_matches_iff r).2 ⟨hsrc.1, hsrc.2⟩
        have hmem : r ∈ l.ingress_security_rules.filter rule_matches :=
          List.mem_filter.2 ⟨hr, hm⟩
        rw [List.map_eq_nil_iff] at hq
        rw [hq] at hmem
        exact absurd hmem (List.not_mem_nil r)
    · rw [if_neg hp]
      simp only [Option.isSome_none, Bool.false_eq_true, false_iff]
      rintro ⟨h1, h2, -⟩
      exact hp ((secListPred_iff l).2 ⟨h1, h2⟩)
  · rw [processSecList] at h
    by_cases hp : secListPred l = true
    · rw [if_pos hp] at h
      by_cases hq : (l.ingress_security_rules.filter rule_matches).map renderRule ≠ []
      · rw [if_pos hq] at h
        cases h
        simp [List.length_map]
      · rw [if_neg hq] at h
        cases h
    · rw [if_neg hp] at h
      cases h

/-- Witness for the amended C1: the matched-rule count equation applied to
the concrete all-ports security list. -/
theorem secList_flag_amended_witness :
    processSecList "c" exVcn openSecList =
      some ⟨"sl-open", "vcn-1", "AVAILABLE", 1, "TCP:ALL", "c", "env=dev",
        "ocid1.seclist.open"⟩ ∧
    (⟨"sl-open", "vcn-1", "AVAILABLE", 1, "TCP:ALL", "c", "env=dev",
      "ocid1.seclist.open"⟩ : SecFinding).permissive_rules_count =
      (openSecList.ingress_security_rules.filter rule_matches).length :=
  ⟨by decide, secList_flag_amended.2.1 "c" exVcn openSecList _ (by decide)⟩

/-! ## Scanner unfolding lemmas -/

/-- `scanVolumes` on the empty listing. -/
lemma scanVolumes_nil (latt : String → Except String (List VolumeAttachment)) (cid : String) :
    scanVolumes latt cid [] = [] := rfl

/-- One step of the volume loop. -/
lemma scanVolumes_cons (latt : String → Except String (List VolumeAttachment))
    (cid : String) (v : Volume) (rest : List Volume) :
    scanVolumes latt cid (v :: rest) =
      if volPred v then
        match latt v.id with
        | .error _ => []
        | .ok atts =>
          (if atts.isEmpty then [mkVolFinding cid v] else []) ++ scanVolumes latt cid rest
      else scanVolumes latt cid rest := rfl

/-- `scanLbs` on the empty listing. -/
lemma scanLbs_nil (glb : String → Except String LbDetails) (cid : String) :
    scanLbs glb cid [] = [] := rfl

/-- One step of the load-balancer loop. -/
lemma scanLbs_cons (glb : String → Except String LbDetails) (cid : String)
    (lb : LoadBalancer) (rest : List LoadBalancer) :
    scanLbs glb cid (lb :: rest) =
      if lbPred lb then
        match glb lb.id with
        | .error _ => []
        | .ok d => (if !lbHasBackends d then [mkLbFinding cid lb] else []) ++ scanLbs glb cid rest
      else scanLbs glb cid rest := rfl

/-- `scanVcns` on the empty listing. -/
lemma scanVcns_nil (lsec : String → Except String (List SecurityList)) (cid : String) :
    scanVcns lsec cid [] = [] := rfl

/-- One step of the VCN loop. -/
lemma scanVcns_cons (lsec : String → Except String (List SecurityList)) (cid : String)
    (vcn : Vcn) (rest : List Vcn) :
    scanVcns lsec cid (vcn :: rest) =
      if vcn.lifecycle_state == "AVAILABLE" then
        match lsec vcn.id with
        | .error _ => []
        | .ok secs => secs.filterMap (processSecList cid vcn) ++ scanVcns lsec cid rest
      else scanVcns lsec cid rest := rfl

/-- One step of the compute pass. -/
lemma computePass_cons (cid : String) (i : Instance) (rest : List Instance) :
    computePass cid (i :: rest) =
      ((if computeBasePred i && !has_automation_tags i.tags then
          mkComputeFinding cid i :: (computePass cid rest).1 else (computePass cid rest).1),
       (if computeBasePred i && oversized_compute_shapes.contains i.shape then
          mkComputeFinding cid i :: (computePass cid rest).2 else (computePass cid rest).2)) := rfl

/-! ## Theorems: the compute scanner (C4) -/

/-- Counterexample to claim C4: an untagged running instance lacks every
automation-tag key (so the claim's K is 1), yet the automation-gap
category is empty because the instance fails the dev/test filter the claim
omits from K's definition. -/
theorem compute_counts_counterexample :
    ([noTagInstance].filter (fun i => !has_automation_tags i.tags)).length = 1 ∧
    (check_compute_instances (.ok [noTagInstance]) "c").missing_automation.length = 0 := by
  decide

/-- Both projections of the compute pass count exactly the instances
passing the shared filter plus the branch condition. -/
lemma computePass_lengths (cid : String) (l : List Instance) :
    (computePass cid l).1.length =
      (l.filter (fun i => computeBasePred i && !has_automation_tags i.tags)).length ∧
    (computePass cid l).2.length =
      (l.filter (fun i => computeBasePred i && oversized_compute_shapes.contains i.shape)).length := by
  induction l with
  | nil => exact ⟨rfl, rfl⟩
  | cons i rest ih =>
    simp only [computePass, List.filter_cons]
    constructor
    · cases h1 : computeBasePred i && !has_automation_tags i.tags <;> simp [h1, ih.1]
    · cases h2 : computeBasePred i && oversized_compute_shapes.contains i.shape <;> simp [h2, ih.2]

/-- Claim C4 as amended: over a single listing pass (the scanner records
exactly one `list_instances` call), the automation-gap category has exactly
one entry per dev/test-tagged RUNNING/STOPPED instance lacking every
automation-tag key, and the oversized category exactly one entry per such
instance with a shape in the oversized set. -/
theorem compute_single_pass_amended :
    ∀ (cid : String) (instances : List Instance),
      (check_compute_instances (.ok instances) cid).missing_automation.length =
        (instances.filter (fun i => computeBasePred i && !has_automation_tags i.tags)).length ∧
      (check_compute_instances (.ok instances) cid).oversized_instances.length =
        (instances.filter (fun i =>
          computeBasePred i && oversized_compute_shapes.contains i.shape)).length ∧
      (check_compute_instances (.ok instances) cid).list_instances_calls = 1 := by
  intro cid instances
  exact ⟨(computePass_lengths cid instances).1, (computePass_lengths cid instances).2, rfl⟩

/-! ## Theorems: secondary-call failures (C2) -/

/-- Counterexample to claim C2: the attachment lookup raises on the first
volume, and the second volume — dev/test, available, unattached — is never
reached: the category result is empty instead of containing its finding. -/
theorem volume_abort_counterexample :
    volPred (exVol "vol-2") = true ∧
    failFirstLookup "vol-2" = .ok [] ∧
    check_unattached_volumes (.ok [exVol "vol-1", exVol "vol-2"]) failFirstLookup "c" = [] := by
  refine ⟨by decide, rfl, by decide⟩

/-- A secondary-call error at a volume discards exactly the suffix of the
traversal from that volume on. -/
lemma scanVolumes_error_abort
    (latt : String → Except String (List VolumeAttachment)) (cid : String)
    (pre post : List Volume) (v : Volume) (e : String)
    (hv : volPred v = true) (he : latt v.id = .error e) :
    scanVolumes latt cid (pre ++ v :: post) = scanVolumes latt cid pre := by
  induction pre with
  | nil =>
    rw [List.nil_append, scanVolumes_cons, if_pos hv, he, scanVolumes_nil]
  | cons a rest ih =>
    rw [List.cons_append, scanVolumes_cons, scanVolumes_cons]
    by_cases ha : volPred a = true
    · rw [if_pos ha, if_pos ha]
      cases hla : latt a.id with
      | error e2 => rfl
      | ok atts => rw [ih]
    · rw [if_neg ha, if_neg ha, ih]

/-- A detail-fetch error at a load balancer discards exactly the suffix of
the traversal from that balancer on. -/
lemma scanLbs_error_abort (glb : String → Except String LbDetails) (cid : String)
    (pre post : List LoadBalancer) (lb : LoadBalancer) (e : String)
    (hv : lbPred lb = true) (he : glb lb.id = .error e) :
    scanLbs glb cid (pre ++ lb :: post) = scanLbs glb cid pre := by
  induction pre with
  | nil => rw [List.nil_append, scanLbs_cons, if_pos hv, he, scanLbs_nil]
  | cons a rest ih =>
    rw [List.cons_append, scanLbs_cons, scanLbs_cons]
    by_cases ha : lbPred a = true
    · rw [if_pos ha, if_pos ha]
      cases hla : glb a.id with
      | error e2 => rfl
      | ok d => rw [ih]
    · rw [if_neg ha, if_neg ha, ih]

/-- A security-list-listing error at a VCN discards exactly the suffix of
the traversal from that VCN on. -/
lemma scanVcns_error_abort (lsec : String → Except String (List SecurityList)) (cid : String)
    (pre post : List Vcn) (vcn : Vcn) (e : String)
    (hv : vcn.lifecycle_state = "AVAILABLE") (he : lsec vcn.id = .error e) :
    scanVcns lsec cid (pre ++ vcn :: post) = scanVcns lsec cid pre := by
  have hb : (vcn.lifecycle_state == "AVAILABLE") = true := by
    rw [hv]; rfl
  induction pre with
  | nil => rw [List.nil_append, scanVcns_cons, if_pos hb, he, scanVcns_nil]
  | cons a rest ih =>
    rw [List.cons_append, scanVcns_cons, scanVcns_cons]
    by_cases ha : (a.lifecycle_state == "AVAILABLE") = true
    · rw [if_pos ha, if_pos ha]
      cases hla : lsec a.id with
      | error e2 => rfl
      | ok secs => rw [ih]
    · rw [if_neg ha, if_neg ha, ih]

/-- Claim C2 as amended: in each category with secondary per-resource calls
(volume attachments, load-balancer detail, per-VCN security lists), an
error on one resource's secondary call aborts the remaining resources of
that category in the current scope — the findings accumulated before the
failing resource are kept — while every other category is computed
unchanged. -/
theorem secondary_error_aborts_category :
    (∀ (latt : String → Except String (List VolumeAttachment)) (cid : String)
       (pre post : List Volume) (v : Volume) (e : String),
       volPred v = true → latt v.id = .error e →
       scanVolumes latt cid (pre ++ v :: post) = scanVolumes latt cid pre) ∧
    (∀ (glb : String → Except String LbDetails) (cid : String)
       (pre post : List LoadBalancer) (lb : LoadBalancer) (e : String),
       lbPred lb = true → glb lb.id = .error e →
       scanLbs glb cid (pre ++ lb :: post) = scanLbs glb cid pre) ∧
    (∀ (lsec : String → Except String (List SecurityList)) (cid : String)
       (pre post : List Vcn) (vcn : Vcn) (e : String),
       vcn.lifecycle_state = "AVAILABLE" → lsec vcn.id = .error e →
       scanVcns lsec cid (pre ++ vcn :: post) = scanVcns lsec cid pre) ∧
    (∀ (c : Clients) (lv : Except String (List Volume))
       (latt : String → Except String (List VolumeAttachment)) (cid : String),
       (analyze_compartment { c with list_volumes := lv, list_volume_attachments := latt }
           cid).database_instances
         = (analyze_compartment c cid).database_instances ∧
       (analyze_compartment { c with list_volumes := lv, list_volume_attachments := latt }
           cid).compute_missing_automation
         = (analyze_compartment c cid).compute_missing_automation ∧
       (analyze_compartment { c with list_volumes := lv, list_volume_attachments := latt }
           cid).oversized_compute
         = (analyze_compartment c cid).oversized_compute ∧
       (analyze_compartment { c with list_volumes := lv, list_volume_attachments := latt }
           cid).unused_public_ips
         = (analyze_compartment c cid).unused_public_ips ∧
       (analyze_compartment { c with list_volumes := lv, list_volume_attachments := latt }
           cid).empty_load_balancers
         = (analyze_compartment c cid).empty_load_balancers ∧
       (analyze_compartment { c with list_volumes := lv, list_volume_attachments := latt }
           cid).permissive_security_lists
         = (analyze_compartment c cid).permissive_security_lists) :=
  ⟨scanVolumes_error_abort, scanLbs_error_abort, scanVcns_error_abort,
   fun _ _ _ _ => ⟨rfl, rfl, rfl, rfl, rfl, rfl⟩⟩

/-- Witness for the amended C2: the abort equation at a concrete failing
lookup. -/
theorem secondary_error_aborts_category_witness :
    volPred (exVol "vol-1") = true ∧
    failFirstLookup (exVol "vol-1").id = .error "boom" ∧
    scanVolumes failFirstLookup "c" ([] ++ exVol "vol-1" :: [exVol "vol-2"]) =
      scanVolumes failFirstLookup "c" [] :=
  ⟨by decide, rfl,
   secondary_error_aborts_category.1 failFirstLookup "c" [] [exVol "vol-2"]
     (exVol "vol-1") "boom" (by decide) rfl⟩

/-! ## Theorems: category and scope isolation (C3) -/

/-- Counterexample to claim C3: the attachment lookup raises on the SECOND
volume after the first volume's finding was appended; the category keeps
the non-empty partial list instead of becoming empty. -/
theorem partial_list_kept_counterexample :
    failSecondLookup "vol-2" = .error "boom" ∧
    check_unattached_volumes (.ok [exVol "vol-1", exVol "vol-2"]) failSecondLookup "c" =
      [mkVolFinding "c" (exVol "vol-1")] ∧
    [mkVolFinding "c" (exVol "vol-1")] ≠ ([] : List VolFinding) := by
  refine ⟨rfl, by decide, by decide⟩

/-- `mergeResults` is associative, category-wise. -/
lemma mergeResults_assoc (a b c : Results) :
    mergeResults (mergeResults a b) c = mergeResults a (mergeResults b c) := by
  simp [mergeResults, List.append_assoc]

/-- The compartment loop is a homomorphism over list append: each scope's
contribution is computed independently of the others. -/
lemma aggregate_append (clientsFor : String → Clients) (pre post : List Compartment) :
    aggregate clientsFor (pre ++ post) =
      mergeResults (aggregate clientsFor pre) (aggregate clientsFor post) := by
  induction pre with
  | nil => rfl
  | cons comp rest ih =>
    rw [List.cons_append, aggregate, aggregate]
    by_cases hc : (comp.lifecycle_state == "ACTIVE") = true
    · rw [if_pos hc, if_pos hc, ih, mergeResults_assoc]
    · rw [if_neg hc, if_neg hc, ih]

/-- Claim C3 as amended: when a category's (first) listing call fails, that
category's result for the scope is empty; when a later listing or a
secondary-detail call fails, the findings accumulated before the failure
are kept (possibly a non-empty partial list); other categories and other
scopes are processed normally. -/
theorem category_failure_isolation_amended :
    (∀ (e : String) (latt : String → Except String (List VolumeAttachment)) (cid : String),
       check_unattached_volumes (.error e) latt cid = []) ∧
    (∀ (e : String) (lad : Except String (List AutonomousDb)) (cid : String),
       check_database_instances (.error e) lad cid = []) ∧
    (∀ (e cid : String), check_unused_public_ips (.error e) cid = []) ∧
    (∀ (e : String) (glb : String → Except String LbDetails) (cid : String),
       check_empty_load_balancers (.error e) glb cid = []) ∧
    (∀ (e : String) (lsec : String → Except String (List SecurityList)) (cid : String),
       check_permissive_security_lists (.error e) lsec cid = []) ∧
    (∀ (e cid : String),
       (check_compute_instances (.error e) cid).missing_automation = [] ∧
       (check_compute_instances (.error e) cid).oversized_instances = []) ∧
    (∀ (dbs : List DbSystem) (e cid : String),
       check_database_instances (.ok dbs) (.error e) cid =
         (dbs.filter dbSystemPred).map (mkDbSystemFinding cid)) ∧
    (∀ (latt : String → Except String (List VolumeAttachment)) (cid : String)
       (pre post : List Volume) (v : Volume) (e : String),
       volPred v = true → latt v.id = .error e →
       check_unattached_volumes (.ok (pre ++ v :: post)) latt cid =
         scanVolumes latt cid pre) ∧
    (∀ (clientsFor : String → Clients) (pre post : List Compartment),
       aggregate clientsFor (pre ++ post) =
         mergeResults (aggregate clientsFor pre) (aggregate clientsFor post)) :=
  ⟨fun _ _ _ => rfl, fun _ _ _ => rfl, fun _ _ => rfl, fun _ _ _ => rfl, fun _ _ _ => rfl,
   fun _ _ => ⟨rfl, rfl⟩, fun _ _ _ => rfl,
   fun latt cid pre post v e hv he => scanVolumes_error_abort latt cid pre post v e hv he,
   aggregate_append⟩

/-- Witness for the amended C3: the partial-list equation at a concrete
failing lookup. -/
theorem category_failure_isolation_amended_witness :
    volPred (exVol "vol-2") = true ∧
    failSecondLookup (exVol "vol-2").id = .error "boom" ∧
    check_unattached_volumes (.ok ([exVol "vol-1"] ++ exVol "vol-2" :: []))
        failSecondLookup "c" =
      scanVolumes failSecondLookup "c" [exVol "vol-1"] :=
  ⟨by decide, rfl,
   category_failure_isolation_amended.2.2.2.2.2.2.2.1 failSecondLookup "c"
     [exVol "vol-1"] [] (exVol "vol-2") "boom" (by decide) rfl⟩

/-! ## Theorems: the full-predicate invariant (C5) -/

/-- Membership in a filtered-and-mapped listing yields the source resource
and its predicate. -/
lemma mem_filter_map {α β : Type} (p : α → Bool) (g : α → β) (l : List α) (f : β)
    (h : f ∈ (l.filter p).map g) : ∃ x ∈ l, p x = true ∧ f = g x := by
  rcases List.mem_map.1 h with ⟨x, hx, rfl⟩
  have hm := List.mem_filter.1 hx
  exact ⟨x, hm.1, hm.2, rfl⟩

/-- Every database finding comes from a DB system or an autonomous database
satisfying its branch's predicate. -/
lemma mem_check_database (lds : Except String (List DbSystem))
    (lad : Except String (List AutonomousDb)) (cid : String) (f : DbFinding)
    (h : f ∈ check_database_instances lds lad cid) :
    (∃ dbs, lds = .ok dbs ∧ ∃ d ∈ dbs, dbSystemPred d = true ∧ f = mkDbSystemFinding cid d) ∨
    (∃ adbs, lad = .ok adbs ∧ ∃ a ∈ adbs, adbPred a = true ∧ f = mkAdbFinding cid a) := by
  cases lds with
  | error e => simp [check_database_instances] at h
  | ok dbs =>
    cases lad with
    | error e =>
      simp only [check_database_instances] at h
      exact Or.inl ⟨dbs, rfl, mem_filter_map _ _ _ _ h⟩
    | ok adbs =>
      simp only [check_database_instances] at h
      rcases List.mem_append.1 h with h1 | h2
      · exact Or.inl ⟨dbs, rfl, mem_filter_map _ _ _ _ h1⟩
      · exact Or.inr ⟨adbs, rfl, mem_filter_map _ _ _ _ h2⟩

/-- Every automation-gap finding comes from an instance passing the shared
filter without automation tags. -/
lemma mem_computePass_fst (cid : String) (l : List Instance) (f : ComputeFinding)
    (h : f ∈ (computePass cid l).1) :
    ∃ i ∈ l, computeBasePred i = true ∧ has_automation_tags i.tags = false ∧
      f = mkComputeFinding cid i := by
  induction l with
  | nil => simp [computePass] at h
  | cons i rest ih =>
    rw [computePass_cons] at h
    by_cases hc : (computeBasePred i && !has_automation_tags i.tags) = true
    · rw [if_pos hc] at h
      rcases List.mem_cons.1 h with rfl | hm
      · rw [Bool.and_eq_true] at hc
        rcases hc with ⟨h1, h2⟩
        rw [Bool.not_eq_true'] at h2
        exact ⟨i, List.mem_cons_self i rest, h1, h2, rfl⟩
      · rcases ih hm with ⟨i', hi', hall⟩
        exact ⟨i', List.mem_cons_of_mem _ hi', hall⟩
    · rw [if_neg hc] at h
      rcases ih h with ⟨i', hi', hall⟩
      exact ⟨i', List.mem_cons_of_mem _ hi', hall⟩

/-- Every oversized finding comes from an instance passing the shared
filter with an oversized shape. -/
lemma mem_computePass_snd (cid : String) (l : List Instance) (f : ComputeFinding)
    (h : f ∈ (computePass cid l).2) :
    ∃ i ∈ l, computeBasePred i = true ∧ oversized_compute_shapes.contains i.shape = true ∧
      f = mkComputeFinding cid i := by
  induction l with
  | nil => simp [computePass] at h
  | cons i rest ih =>
    rw [computePass_cons] at h
    by_cases hc : (computeBasePred i && oversized_compute_shapes.contains i.shape) = true
    · rw [if_pos hc] at h
      rcases List.mem_cons.1 h with rfl | hm
      · rw [Bool.and_eq_true] at hc
        rcases hc with ⟨h1, h2⟩
        exact ⟨i, List.mem_cons_self i rest, h1, h2, rfl⟩
      · rcases ih hm with ⟨i', hi', hall⟩
        exact ⟨i', List.mem_cons_of_mem _ hi', hall⟩
    · rw [if_neg hc] at h
      rcases ih h with ⟨i', hi', hall⟩
      exact ⟨i', List.mem_cons_of_mem _ hi', hall⟩

/-- Every unattached-volume finding comes from a filtered volume whose
attachment lookup returned the empty list. -/
lemma mem_scanVolumes (latt : String → Except String (List VolumeAttachment))
    (cid : String) (vols : List Volume) (f : VolFinding)
    (h : f ∈ scanVolumes latt cid vols) :
    ∃ v ∈ vols, volPred v = true ∧ latt v.id = .ok [] ∧ f = mkVolFinding cid v := by
  induction vols with
  | nil => simp [scanVolumes_nil] at h
  | cons v rest ih =>
    rw [scanVolumes_cons] at h
    by_cases hv : volPred v = true
    · rw [if_pos hv] at h
      cases hla : latt v.id with
      | error e => rw [hla] at h; simp at h
      | ok atts =>
        rw [hla] at h
        rcases List.mem_append.1 h with h1 | h2
        · by_cases he : atts.isEmpty = true
          · rw [if_pos he] at h1
            rcases List.mem_singleton.1 h1 with rfl
            rw [List.isEmpty_iff] at he
            rw [he] at hla
            exact ⟨v, List.mem_cons_self v rest, hv, hla, rfl⟩
          · rw [if_neg he] at h1
            simp at h1
        · rcases ih h2 with ⟨v', hv', hall⟩
          exact ⟨v', List.mem_cons_of_mem _ hv', hall⟩
    · rw [if_neg hv] at h
      rcases ih h with ⟨v', hv', hall⟩
      exact ⟨v', List.mem_cons_of_mem _ hv', hall⟩

/-- Every empty-load-balancer finding comes from a filtered balancer whose
detail record shows no non-empty backend set. -/
lemma mem_scanLbs (glb : String → Except String LbDetails)
    (cid : String) (lbs : List LoadBalancer) (f : LbFinding)
    (h : f ∈ scanLbs glb cid lbs) :
    ∃ lb ∈ lbs, lbPred lb = true ∧
      (∃ d, glb lb.id = .ok d ∧ lbHasBackends d = false) ∧ f = mkLbFinding cid lb := by
  induction lbs with
  | nil => simp [scanLbs_nil] at h
  | cons lb rest ih =>
    rw [scanLbs_cons] at h
    by_cases hv : lbPred lb = true
    · rw [if_pos hv] at h
      cases hla : glb lb.id with
      | error e => rw [hla] at h; simp at h
      | ok d =>
        rw [hla] at h
        rcases List.mem_append.1 h with h1 | h2
        · by_cases he : lbHasBackends d = false
          · rw [if_pos (by rw [he]; rfl : (!lbHasBackends d) = true)] at h1
            rcases List.mem_singleton.1 h1 with rfl
            exact ⟨lb, List.mem_cons_self lb rest, hv, ⟨d, hla, he⟩, rfl⟩
          · rw [Bool.not_eq_false] at he
            rw [if_neg (by rw [he]; simp : ¬(!lbHasBackends d) = true)] at h1
            simp at h1
        · rcases ih h2 with ⟨lb', hlb', hall⟩
          exact ⟨lb', List.mem_cons_of_mem _ hlb', hall⟩
    · rw [if_neg hv] at h
      rcases ih h with ⟨lb', hlb', hall⟩
      exact ⟨lb', List.mem_cons_of_mem _ hlb', hall⟩

/-- A produced security-list finding certifies the filter and a non-empty
matched-rule list. -/
lemma processSecList_some (cid : String) (vcn : Vcn) (l : SecurityList) (f : SecFinding)
    (h : processSecList cid vcn l = some f) :
    secListPred l = true ∧ l.ingress_security_rules.filter rule_matches ≠ [] := by
  rw [processSecList] at h
  by_cases hp : secListPred l = true
  · rw [if_pos hp] at h
    by_cases hq : (l.ingress_security_rules.filter rule_matches).map renderRule ≠ []
    · refine ⟨hp, fun hn => hq ?_⟩
      rw [hn]; rfl
    · rw [if_neg hq] at h
      cases h
  · rw [if_neg hp] at h
    cases h

/-- Every security-list finding comes from an available VCN's listing and a
security list processed to exactly that finding. -/
lemma mem_scanVcns (lsec : String → Except String (List SecurityList))
    (cid : String) (vcns : List Vcn) (f : SecFinding)
    (h : f ∈ scanVcns lsec cid vcns) :
    ∃ vcn ∈ vcns, vcn.lifecycle_state = "AVAILABLE" ∧
      ∃ ls, lsec vcn.id = .ok ls ∧ ∃ l ∈ ls, processSecList cid vcn l = some f := by
  induction vcns with
  | nil => simp [scanVcns_nil] at h
  | cons vcn rest ih =>
    rw [scanVcns_cons] at h
    by_cases hv : (vcn.lifecycle_state == "AVAILABLE") = true
    · rw [if_pos hv] at h
      cases hla : lsec vcn.id with
      | error e => rw [hla] at h; simp at h
      | ok secs =>
        rw [hla] at h
        rcases List.mem_append.1 h with h1 | h2
        · rcases List.mem_filterMap.1 h1 with ⟨l, hl, hsome⟩
          exact ⟨vcn, List.mem_cons_self vcn rest, eq_of_beq hv, secs, hla, l, hl, hsome⟩
        · rcases ih h2 with ⟨vcn', hvcn', hall⟩
          exact ⟨vcn', List.mem_cons_of_mem _ hvcn', hall⟩
    · rw [if_neg hv] at h
      rcases ih h with ⟨vcn', hvcn', hall⟩
      exact ⟨vcn', List.mem_cons_of_mem _ hvcn', hall⟩

/-- Claim C5: every finding of every category produced by a compartment
analysis originates from a listed resource satisfying that category's full
accept predicate — no partially-matching resource ever yields a finding. -/
theorem finding_full_predicate_invariant (c : Clients) (cid : String) :
    findingInvariant c cid (analyze_compartment c cid) := by
  refine ⟨fun f hf => mem_check_database _ _ _ _ hf, fun f hf => ?_, fun f hf => ?_,
    fun f hf => ?_, fun f hf => ?_, fun f hf => ?_, fun f hf => ?_⟩
  · cases hli : c.list_instances with
    | error e =>
      have : (analyze_compartment c cid).compute_missing_automation = [] := by
        simp [analyze_compartment, check_compute_instances, hli]
      rw [this] at hf
      simp at hf
    | ok insts =>
      have : (analyze_compartment c cid).compute_missing_automation =
          (computePass cid insts).1 := by
        simp [analyze_compartment, check_compute_instances, hli]
      rw [this] at hf
      exact ⟨insts, rfl, mem_computePass_fst _ _ _ hf⟩
  · cases hli : c.list_instances with
    | error e =>
      have : (analyze_compartment c cid).oversized_compute = [] := by
        simp [analyze_compartment, check_compute_instances, hli]
      rw [this] at hf
      simp at hf
    | ok insts =>
      have : (analyze_compartment c cid).oversized_compute = (computePass cid insts).2 := by
        simp [analyze_compartment, check_compute_instances, hli]
      rw [this] at hf
      exact ⟨insts, rfl, mem_computePass_snd _ _ _ hf⟩
  · cases hlv : c.list_volumes with
    | error e =>
      have : (analyze_compartment c cid).unattached_volumes = [] := by
        simp [analyze_compartment, check_unattached_volumes, hlv]
      rw [this] at hf
      simp at hf
    | ok vols =>
      have : (analyze_compartment c cid).unattached_volumes =
          scanVolumes c.list_volume_attachments cid vols := by
        simp [analyze_compartment, check_unattached_volumes, hlv]
      rw [this] at hf
      exact ⟨vols, rfl, mem_scanVolumes _ _ _ _ hf⟩
  · cases hlp : c.list_public_ips with
    | error e =>
      have : (analyze_compartment c cid).unused_public_ips = [] := by
        simp [analyze_compartment, check_unused_public_ips, hlp]
      rw [this] at hf
      simp at hf
    | ok ips =>
      have : (analyze_compartment c cid).unused_public_ips =
          (ips.filter ipPred).map (mkIpFinding cid) := by
        simp [analyze_compartment, check_unused_public_ips, hlp]
      rw [this] at hf
      exact ⟨ips, rfl, mem_filter_map _ _ _ _ hf⟩
  · cases hll : c.list_load_balancers with
    | error e =>
      have : (analyze_compartment c cid).empty_load_balancers = [] := by
        simp [analyze_compartment, check_empty_load_balancers, hll]
      rw [this] at hf
      simp at hf
    | ok lbs =>
      have : (analyze_compartment c cid).empty_load_balancers =
          scanLbs c.get_load_balancer cid lbs := by
        simp [analyze_compartment, check_empty_load_balancers, hll]
      rw [this] at hf
      exact ⟨lbs, rfl, mem_scanLbs _ _ _ _ hf⟩
  · cases hlv : c.list_vcns with
    | error e =>
      have : (analyze_compartment c cid).permissive_security_lists = [] := by
        simp [analyze_compartment, check_permissive_security_lists, hlv]
      rw [this] at hf
      simp at hf
    | ok vcns =>
      have : (analyze_compartment c cid).permissive_security_lists =
          scanVcns c.list_security_lists cid vcns := by
        simp [analyze_compartment, check_permissive_security_lists, hlv]
      rw [this] at hf
      rcases mem_scanVcns _ _ _ _ hf with ⟨vcn, hvcn, hav, ls, hls, l, hl, hsome⟩
      rcases processSecList_some _ _ _ _ hsome with ⟨hpred, hfil⟩
      exact ⟨vcns, rfl, vcn, hvcn, hav, ls, hls, l, hl, hpred, hfil, hsome⟩

/-! ## Theorems: the report writer (C8) -/

/-- Membership in a conditional singleton. -/
lemma mem_if_singleton {α : Type} (c : Prop) [Decidable c] (x y : α) :
    x ∈ (if c then [y] else []) ↔ c ∧ x = y := by
  by_cases h : c <;> simp [h]

/-- A category label appears among the exported files iff its finding list
is non-empty. -/
lemma mem_export_iff (r : Results) (path ts : String) :
    ((∃ fn, ("database_instances", fn) ∈ export_to_csv r path ts) ↔
      r.database_instances ≠ []) ∧
    ((∃ fn, ("compute_missing_automation", fn) ∈ export_to_csv r path ts) ↔
      r.compute_missing_automation ≠ []) ∧
    ((∃ fn, ("oversized_compute", fn) ∈ export_to_csv r path ts) ↔
      r.oversized_compute ≠ []) ∧
    ((∃ fn, ("unattached_volumes", fn) ∈ export_to_csv r path ts) ↔
      r.unattached_volumes ≠ []) ∧
    ((∃ fn, ("unused_public_ips", fn) ∈ export_to_csv r path ts) ↔
      r.unused_public_ips ≠ []) ∧
    ((∃ fn, ("empty_load_balancers", fn) ∈ export_to_csv r path ts) ↔
      r.empty_load_balancers ≠ []) ∧
    ((∃ fn, ("permissive_security_lists", fn) ∈ export_to_csv r path ts) ↔
      r.permissive_security_lists ≠ []) := by
  refine ⟨?_, ?_, ?_, ?_, ?_, ?_, ?_⟩ <;>
    simp [export_to_csv, List.mem_append, mem_if_singleton, Prod.mk.injEq]

/-- A zero grand total forces every category empty. -/
lemma results_empty_of_total_zero (r : Results) (h : totalIssues r = 0) :
    r.database_instances = [] ∧ r.compute_missing_automation = [] ∧
    r.oversized_compute = [] ∧ r.unattached_volumes = [] ∧
    r.unused_public_ips = [] ∧ r.empty_load_balancers = [] ∧
    r.permissive_security_lists = [] := by
  rw [totalIssues] at h
  refine ⟨?_, ?_, ?_, ?_, ?_, ?_, ?_⟩ <;> (rw [← List.length_eq_zero]; omega)

/-- Counterexample to claim C8: a whole run over one active compartment
holding no resources logs the seven per-category counts but no numeric
grand-total line — the code prints the total only inside
`if total_issues > 0`, and the zero-findings branch prints none. -/
theorem grand_total_line_counterexample :
    (runPipeline (fun _ => emptyClients) [⟨"comp-1", "root", "ACTIVE"⟩]
        "p" "ts").2.summary_counts =
      [("database_instances", 0), ("compute_missing_automation", 0),
       ("oversized_compute", 0), ("unattached_volumes", 0), ("unused_public_ips", 0),
       ("empty_load_balancers", 0), ("permissive_security_lists", 0)] ∧
    (runPipeline (fun _ => emptyClients) [⟨"comp-1", "root", "ACTIVE"⟩]
        "p" "ts").2.total_printed = none := by
  exact ⟨rfl, rfl⟩

/-- Claim C8 as amended: a CSV file is written for a category iff its
finding list is non-empty; the CSV/HTML reports are generated iff the grand
total is positive; the per-category summary is produced in every run, but
the numeric grand-total line is printed only when the grand total is
positive (and then carries exactly the computed total). -/
theorem report_generation_amended :
    ∀ (r : Results) (path ts : String),
      ((∃ fn, ("database_instances", fn) ∈ (runReports r path ts).csv_files) ↔
        r.database_instances ≠ []) ∧
      ((∃ fn, ("compute_missing_automation", fn) ∈ (runReports r path ts).csv_files) ↔
        r.compute_missing_automation ≠ []) ∧
      ((∃ fn, ("oversized_compute", fn) ∈ (runReports r path ts).csv_files) ↔
        r.oversized_compute ≠ []) ∧
      ((∃ fn, ("unattached_volumes", fn) ∈ (runReports r path ts).csv_files) ↔
        r.unattached_volumes ≠ []) ∧
      ((∃ fn, ("unused_public_ips", fn) ∈ (runReports r path ts).csv_files) ↔
        r.unused_public_ips ≠ []) ∧
      ((∃ fn, ("empty_load_balancers", fn) ∈ (runReports r path ts).csv_files) ↔
        r.empty_load_balancers ≠ []) ∧
      ((∃ fn, ("permissive_security_lists", fn) ∈ (runReports r path ts).csv_files) ↔
        r.permissive_security_lists ≠ []) ∧
      ((runReports r path ts).html_generated = true ↔ 0 < totalIssues r) ∧
      ((runReports r path ts).csv_files ≠ [] ↔ 0 < totalIssues r) ∧
      (runReports r path ts).summary_counts = summaryCounts r ∧
      (runReports r path ts).grand_total = totalIssues r ∧
      ((runReports r path ts).total_printed.isSome = true ↔ 0 < totalIssues r) ∧
      (runReports r path ts).total_printed =
        (if 0 < totalIssues r then some (totalIssues r) else none) := by
  intro r path ts
  have hexp := mem_export_iff r path ts
  by_cases ht : 0 < totalIssues r
  · have hcsv : (runReports r path ts).csv_files = export_to_csv r path ts := by
      simp [runReports, ht]
    rw [hcsv]
    refine ⟨hexp.1, hexp.2.1, hexp.2.2.1, hexp.2.2.2.1, hexp.2.2.2.2.1,
      hexp.2.2.2.2.2.1, hexp.2.2.2.2.2.2, ?_, ⟨fun _ => ht, fun _ => ?_⟩, rfl, rfl,
      by simp [runReports, ht], rfl⟩
    · simp [runReports, ht]
    · intro hnil
      have d1 : r.database_instances = [] := by
        by_contra hd
        rcases hexp.1.2 hd with ⟨fn, hm⟩
        rw [hnil] at hm
        exact absurd hm (List.not_mem_nil _)
      have d2 : r.compute_missing_automation = [] := by
        by_contra hd
        rcases hexp.2.1.2 hd with ⟨fn, hm⟩
        rw [hnil] at hm
        exact absurd hm (List.not_mem_nil _)
      have d3 : r.oversized_compute = [] := by
        by_contra hd
        rcases hexp.2.2.1.2 hd with ⟨fn, hm⟩
        rw [hnil] at hm
        exact absurd hm (List.not_mem_nil _)
      have d4 : r.unattached_volumes = [] := by
        by_contra hd
        rcases hexp.2.2.2.1.2 hd with ⟨fn, hm⟩
        rw [hnil] at hm
        exact absurd hm (List.not_mem_nil _)
      have d5 : r.unused_public_ips = [] := by
        by_contra hd
        rcases hexp.2.2.2.2.1.2 hd with ⟨fn, hm⟩
        rw [hnil] at hm
        exact absurd hm (List.not_mem_nil _)
      have d6 : r.empty_load_balancers = [] := by
        by_contra hd
        rcases hexp.2.2.2.2.2.1.2 hd with ⟨fn, hm⟩
        rw [hnil] at hm
        exact absurd hm (List.not_mem_nil _)
      have d7 : r.permissive_security_lists = [] := by
        by_contra hd
        rcases hexp.2.2.2.2.2.2.2 hd with ⟨fn, hm⟩
        rw [hnil] at hm
        exact absurd hm (List.not_mem_nil _)
      rw [totalIssues] at ht
      simp [d1, d2, d3, d4, d5, d6, d7] at ht
  · have h0 : totalIssues r = 0 := Nat.eq_zero_of_not_pos ht
    rcases results_empty_of_total_zero r h0 with ⟨e1, e2, e3, e4, e5, e6, e7⟩
    have hcsv : (runReports r path ts).csv_files = [] := by
      simp [runReports, ht]
    rw [hcsv]
    simp [e1, e2, e3, e4, e5, e6, e7, runReports, ht, h0]

/-! ## Theorems: determinism (C9) -/

/-- Claim C9: two pipeline runs over the same resource inventory (differing
only in their timestamps) produce identical finding collections — same
rows, same fields, same order in every category — and identical summary
contents; only the timestamped file names can differ. -/
theorem pipeline_deterministic :
    ∀ (clientsFor : String → Clients) (comps : List Compartment) (path ts1 ts2 : String),
      (runPipeline clientsFor comps path ts1).1 = (runPipeline clientsFor comps path ts2).1 ∧
      (runPipeline clientsFor comps path ts1).2.summary_counts =
        (runPipeline clientsFor comps path ts2).2.summary_counts ∧
      (runPipeline clientsFor comps path ts1).2.grand_total =
        (runPipeline clientsFor comps path ts2).2.grand_total ∧
      (runPipeline clientsFor comps path ts1).2.html_generated =
        (runPipeline clientsFor comps path ts2).2.html_generated :=
  fun _ _ _ _ _ => ⟨rfl, rfl, rfl, rfl⟩

end CostChef
